import Mathlib

/-!
Verification of the gosoline stream producer daemon (`pkg/stream`,
`producer_daemon.go`).

The daemon buffers writable messages, optionally folds several raw messages
into one aggregate carrier message, groups carrier messages into batches and
hands finished batches to an output channel drained by worker goroutines.
We embed the daemon state and its operations shallowly:

* the two pending buffers (`aggregate`, `batch`) are Lean lists;
* the output channel is modelled by the ordered list of batches pushed onto
  it (`outCh`), which is exactly what the buffering code can observe;
* the metric writer and the logger are modelled by the ordered lists of
  metric data and log events emitted so far;
* `time.Duration` values are natural numbers of nanoseconds;
  `Duration.Milliseconds()` is division by 1000000;
* the injected `AggregateMarshaller` is a function parameter that may fail
  (`Except String`); attribute maps carry opaque values, modelled as `Bool`
  since the only attribute value the daemon itself ever writes is the
  boolean aggregate marker;
* Go methods mutating the receiver become functions returning the new state,
  paired with the returned `error` (`Except String`) where the Go method
  returns one.
-/

namespace Gosoline.Stream

/-- Attribute key marking a carrier message as an aggregate
(`AttributeAggregate = "goso.aggregate"`). -/
def AttributeAggregate : String := "goso.aggregate"

/-- Metric name constant `metricNameMessageCount`. -/
def metricNameMessageCount : String := "MessageCount"

/-- Metric name constant `metricNameBatchSize`. -/
def metricNameBatchSize : String := "BatchSize"

/-- Metric name constant `metricNameAggregateSize`. -/
def metricNameAggregateSize : String := "AggregateSize"

/-- Metric name constant `metricNameIdleDuration`. -/
def metricNameIdleDuration : String := "IdleDuration"

/-- An attribute map (`map[string]interface{}`): association list from keys to
opaque values, modelled as `Bool` (the daemon only ever stamps the boolean
aggregate marker itself). -/
abbrev AttributeMap := List (String × Bool)

/-- A writable message: either a raw message produced by a caller (identified
by a number) or the carrier message a marshaller built from a list of messages
and the attribute maps passed to it. -/
inductive WritableMessage where
  | raw (id : Nat)
  | aggregateMsg (body : List WritableMessage) (attributes : List AttributeMap)

/-- The `AggregateMarshaller` capability: folds a list of messages plus
attribute maps into one message, or fails. -/
abbrev AggregateMarshaller :=
  List WritableMessage → List AttributeMap → Except String WritableMessage

/-- Metric priority (`mon.Priority`); the daemon uses the zero value and
`mon.PriorityHigh`. -/
inductive MetricPriority where
  | default
  | high
deriving DecidableEq

/-- Metric unit (`mon.Unit…`); the daemon uses the zero value,
`UnitCount`, `UnitCountAverage` and `UnitMillisecondsAverage`. -/
inductive MetricUnit where
  | unset
  | count
  | countAverage
  | millisecondsAverage
deriving DecidableEq

/-- A `mon.MetricDatum` as the daemon writes it: every datum carries the
single dimension `"ProducerDaemon" -> name`, modelled by the
`producerDaemon` field. Values written by the daemon are nonnegative
integers (lengths and millisecond counts), so `value : Nat`. -/
structure MetricDatum where
  priority : MetricPriority := .default
  metricName : String
  producerDaemon : String
  unit : MetricUnit := .unset
  value : Nat
deriving DecidableEq

/-- Log severities the daemon uses in its output loop. -/
inductive LogLevel where
  | warn
  | error
deriving DecidableEq

/-- The `ProducerDaemonSettings` fields relevant to the daemon logic.
`interval` is in nanoseconds (`time.Duration`). `messageAttributes` is the
single attribute map from the configuration. -/
structure ProducerDaemonSettings where
  enabled : Bool := false
  interval : Nat := 60000000000
  bufferSize : Nat := 10
  runnerCount : Nat := 10
  batchSize : Nat := 10
  aggregationSize : Nat := 1
  messageAttributes : AttributeMap := []

/-- The daemon state: the two pending buffers, the batches pushed onto the
output channel so far, the number of `ticker.Reset()` calls, the log events
and metric data emitted so far, the marshaller capability and the settings. -/
structure ProducerDaemon where
  name : String
  aggregate : List WritableMessage := []
  batch : List WritableMessage := []
  outCh : List (List WritableMessage) := []
  tickerResets : Nat := 0
  logs : List (LogLevel × String) := []
  metrics : List MetricDatum := []
  marshaller : AggregateMarshaller
  settings : ProducerDaemonSettings

/-- Embedding of `BuildAggregateMessage`: append the aggregate-marker map to
the attribute maps and invoke the marshaller. -/
def BuildAggregateMessage (marshaller : AggregateMarshaller)
    (aggregate : List WritableMessage) (attributes : List AttributeMap) :
    Except String WritableMessage :=
  marshaller aggregate (attributes ++ [[(AttributeAggregate, true)]])

/-- Embedding of `writeMetricMessageCount`. -/
def writeMetricMessageCount (d : ProducerDaemon) (count : Nat) : ProducerDaemon :=
  { d with metrics := d.metrics ++
      [{ metricName := metricNameMessageCount, producerDaemon := d.name, value := count }] }

/-- Embedding of `writeMetricBatchSize`. -/
def writeMetricBatchSize (d : ProducerDaemon) (size : Nat) : ProducerDaemon :=
  { d with metrics := d.metrics ++
      [{ metricName := metricNameBatchSize, producerDaemon := d.name, value := size }] }

/-- Embedding of `writeMetricAggregateSize`. -/
def writeMetricAggregateSize (d : ProducerDaemon) (size : Nat) : ProducerDaemon :=
  { d with metrics := d.metrics ++
      [{ metricName := metricNameAggregateSize, producerDaemon := d.name, value := size }] }

/-- Embedding of `writeMetricIdleDuration`: the duration is clamped to the
configured interval, then recorded in milliseconds. -/
def writeMetricIdleDuration (d : ProducerDaemon) (idleDuration : Nat) : ProducerDaemon :=
  let idleDuration := if d.settings.interval < idleDuration then d.settings.interval
                      else idleDuration
  { d with metrics := d.metrics ++
      [{ priority := .high, metricName := metricNameIdleDuration, producerDaemon := d.name,
         unit := .millisecondsAverage, value := idleDuration / 1000000 }] }

/-- Embedding of `flushAggregate`: take up to `aggregationSize` messages from
the front of the pending aggregate buffer, record the aggregate-size metric
and fold them via `BuildAggregateMessage`. The buffer mutation and the metric
happen before the marshaller runs, exactly as in the source, so on a
marshalling error the removed messages are already gone from the buffer. -/
def flushAggregate (d : ProducerDaemon) :
    Except String (List WritableMessage) × ProducerDaemon :=
  if d.aggregate.length = 0 then (.ok [], d)
  else
    let size := if d.aggregate.length < d.settings.aggregationSize then d.aggregate.length
                else d.settings.aggregationSize
    let readyAggregate := d.aggregate.take size
    let d1 := writeMetricAggregateSize { d with aggregate := d.aggregate.drop size }
                readyAggregate.length
    match BuildAggregateMessage d1.marshaller readyAggregate [d1.settings.messageAttributes] with
    | .error err => (.error ("can not marshal aggregate: " ++ err), d1)
    | .ok aggregateMessage => (.ok [aggregateMessage], d1)

/-- Embedding of `flushBatch`: move up to `batchSize` messages from the front
of the pending batch buffer onto the output channel; no-op on an empty
buffer. -/
def flushBatch (d : ProducerDaemon) : ProducerDaemon :=
  if d.batch.length = 0 then d
  else
    let size := if d.batch.length < d.settings.batchSize then d.batch.length
                else d.settings.batchSize
    let readyBatch := d.batch.take size
    { d with batch := d.batch.drop size, outCh := d.outCh ++ [readyBatch] }

/-- Embedding of `applyAggregation`: pass-through when the aggregation size
is at most 1; otherwise append to the aggregate buffer and flush one
aggregate once the threshold is reached. -/
def applyAggregation (d : ProducerDaemon) (batch : List WritableMessage) :
    Except String (List WritableMessage) × ProducerDaemon :=
  if d.settings.aggregationSize ≤ 1 then (.ok batch, d)
  else
    let d1 := { d with aggregate := d.aggregate ++ batch }
    if d1.aggregate.length < d1.settings.aggregationSize then (.ok [], d1)
    else flushAggregate d1

/-- Embedding of `Write`: record the message-count metric, run aggregation,
append the carrier messages to the pending batch buffer and, once the batch
threshold is reached, reset the ticker and flush one batch. -/
def Write (d : ProducerDaemon) (batch : List WritableMessage) :
    Except String Unit × ProducerDaemon :=
  let d0 := writeMetricMessageCount d batch.length
  match applyAggregation d0 batch with
  | (.error err, d1) =>
      (.error ("can not apply aggregation in producer " ++ d1.name ++ ": " ++ err), d1)
  | (.ok batch1, d1) =>
      let d2 := { d1 with batch := d1.batch ++ batch1 }
      if d2.batch.length < d2.settings.batchSize then (.ok (), d2)
      else
        let d3 := { d2 with tickerResets := d2.tickerResets + 1 }
        (.ok (), flushBatch d3)

/-- Embedding of `WriteOne`: delegate to `Write` with a one-element batch. -/
def WriteOne (d : ProducerDaemon) (msg : WritableMessage) :
    Except String Unit × ProducerDaemon :=
  Write d [msg]

/-- Embedding of `flushAll`: force-drain the aggregate buffer, append the
resulting carrier message to the pending batch buffer and flush a batch. -/
def flushAll (d : ProducerDaemon) : Except String Unit × ProducerDaemon :=
  match flushAggregate d with
  | (.error err, d1) => (.error ("can not flush aggregation: " ++ err), d1)
  | (.ok batch, d1) =>
      let d2 := { d1 with batch := d1.batch ++ batch }
      (.ok (), flushBatch d2)

/-- Outcome of one `d.output.Write(ctx, batch)` call as the output loop
classifies it: success, an error classified by `exec.IsRequestCanceled` as a
cancellation, or any other error. -/
inductive SinkResult where
  | ok
  | errCanceled
  | errOther (msg : String)

/-- One successful read from the output channel as the output loop sees it:
the dequeued batch, the measured idle duration in nanoseconds and the sink's
write outcome. -/
structure OutputEvent where
  batch : List WritableMessage
  idleDuration : Nat
  sinkResult : SinkResult

/-- Embedding of the body of `outputLoop` for one dequeued batch: log a
warning on a cancellation-classified write error, log an error otherwise,
then record the batch-size and idle-duration metrics. -/
def outputLoopStep (d : ProducerDaemon) (ev : OutputEvent) : ProducerDaemon :=
  let d1 :=
    match ev.sinkResult with
    | .ok => d
    | .errCanceled =>
        { d with logs := d.logs ++
            [(LogLevel.warn, "can not write messages to output in producer " ++ d.name ++
              " because of canceled context")] }
    | .errOther _ =>
        { d with logs := d.logs ++
            [(LogLevel.error, "can not write messages to output in producer " ++ d.name)] }
  let d2 := writeMetricBatchSize d1 ev.batch.length
  writeMetricIdleDuration d2 ev.idleDuration

/-- Embedding of `outputLoop` over the sequence of successful channel reads a
worker performs before the channel reports closed-and-drained, at which point
the loop returns `nil`. -/
def outputLoop (d : ProducerDaemon) (events : List OutputEvent) :
    Except String Unit × ProducerDaemon :=
  match events with
  | [] => (.ok (), d)
  | ev :: rest => outputLoop (outputLoopStep d ev) rest

/-- The package-level `producerDaemons` registry: an association list from
daemon names to the stored `*ProducerDaemon` pointer, which may be `nil`
(`none`). Distinct daemon instances are identified by numbers. -/
abbrev DaemonRegistry := List (String × Option Nat)

/-- Embedding of `ProvideProducerDaemon`. The call to `NewProducerDaemon` is
abstracted into the `newDaemon` argument (its body reads configuration and
builds an output, neither of which affects the registry logic). As in the
source, the construction result is stored in the registry before the error
check, so a failed construction leaves a `nil` entry behind. -/
def ProvideProducerDaemon (reg : DaemonRegistry) (newDaemon : Except String Nat)
    (name : String) : Except String (Option Nat) × DaemonRegistry :=
  match reg.lookup name with
  | some d => (.ok d, reg)
  | none =>
      match newDaemon with
      | .error err => (.error err, (name, none) :: reg)
      | .ok d => (.ok (some d), (name, some d) :: reg)

/-- A marshaller that always succeeds, packaging body and attributes into an
aggregate carrier message (the shape `MarshalJsonMessage` produces, with the
wire encoding abstracted away). -/
def marshalOk : AggregateMarshaller :=
  fun body attributes => .ok (.aggregateMsg body attributes)

/-- Settings of the example scenario: interval 1s, batch size 10,
aggregation size 1, runner count 1. -/
def scenarioSettings : ProducerDaemonSettings :=
  { interval := 1000000000, bufferSize := 10, runnerCount := 1,
    batchSize := 10, aggregationSize := 1 }

/-- A freshly constructed daemon with the scenario settings. -/
def scenarioDaemon : ProducerDaemon :=
  { name := "scenario", marshaller := marshalOk, settings := scenarioSettings }

/-- The 25 raw messages of the example scenario. -/
def scenarioMsgs : List WritableMessage := (List.range 25).map .raw

/-- Daemon state after the single `Write` call of the scenario. -/
def scenarioAfterWrite : ProducerDaemon := (Write scenarioDaemon scenarioMsgs).2

/-- Daemon state after the first forced flush following the scenario write. -/
def scenarioAfterFlush1 : ProducerDaemon := (flushAll scenarioAfterWrite).2

/-- Daemon state after the second forced flush following the scenario write. -/
def scenarioAfterFlush2 : ProducerDaemon := (flushAll scenarioAfterFlush1).2

/-- Daemon used in concrete witnesses: one message already pending in each
buffer, aggregation size 2, batch size 3, always-succeeding marshaller. -/
def aggDaemon : ProducerDaemon :=
  { name := "agg", aggregate := [.raw 0], batch := [.raw 100],
    marshaller := marshalOk,
    settings := { aggregationSize := 2, batchSize := 3 } }

/-- The carrier message `marshalOk` builds from `[raw 0, raw 1]` with the
default (empty) static attributes plus the aggregate marker. -/
def aggM01 : WritableMessage :=
  .aggregateMsg [.raw 0, .raw 1] [[], [(AttributeAggregate, true)]]

/-- The carrier message `marshalOk` builds from the single message `raw 0`. -/
def aggM0 : WritableMessage :=
  .aggregateMsg [.raw 0] [[], [(AttributeAggregate, true)]]

/-- Daemon whose marshaller always fails. -/
def failDaemon : ProducerDaemon :=
  { name := "fail", aggregate := [.raw 0], batch := [.raw 100],
    marshaller := fun _ _ => .error "boom",
    settings := { aggregationSize := 2, batchSize := 3 } }

/-- With aggregation disabled (size at most 1), `applyAggregation` passes the
incoming batch through untouched. -/
lemma applyAggregation_passthrough (d : ProducerDaemon) (batch : List WritableMessage)
    (h : d.settings.aggregationSize ≤ 1) :
    applyAggregation d batch = (.ok batch, d) := by
  simp [applyAggregation, h]

/-- Below the aggregation threshold, `applyAggregation` only appends to the
pending aggregate buffer and returns no carrier message. -/
lemma applyAggregation_accumulate (d : ProducerDaemon) (batch : List WritableMessage)
    (h : 1 < d.settings.aggregationSize)
    (hlt : (d.aggregate ++ batch).length < d.settings.aggregationSize) :
    applyAggregation d batch = (.ok [], { d with aggregate := d.aggregate ++ batch }) := by
  have hlt2 : d.aggregate.length + batch.length < d.settings.aggregationSize := by
    simpa using hlt
  simp [applyAggregation, Nat.not_le.mpr h, hlt2]

/-- `flushBatch` never touches the pending aggregate buffer. -/
lemma flushBatch_aggregate (d : ProducerDaemon) : (flushBatch d).aggregate = d.aggregate := by
  unfold flushBatch; split <;> rfl

/-- Length of the pending batch buffer after `flushBatch`. -/
lemma flushBatch_batch_length (d : ProducerDaemon) :
    (flushBatch d).batch.length = d.batch.length - min d.settings.batchSize d.batch.length := by
  unfold flushBatch
  split
  · omega
  · simp only [List.length_drop]
    congr 1
    split <;> omega

/-- Result of `flushAggregate` on a non-empty buffer when the marshaller
succeeds. -/
lemma flushAggregate_ok (d : ProducerDaemon) (m : WritableMessage)
    (hne : d.aggregate.length ≠ 0)
    (hm : BuildAggregateMessage d.marshaller
        (d.aggregate.take (min d.settings.aggregationSize d.aggregate.length))
        [d.settings.messageAttributes] = .ok m) :
    flushAggregate d =
      (.ok [m],
       { d with
          aggregate := d.aggregate.drop (min d.settings.aggregationSize d.aggregate.length),
          metrics := d.metrics ++
            [{ metricName := metricNameAggregateSize, producerDaemon := d.name,
               value := min d.settings.aggregationSize d.aggregate.length }] }) := by
  have hsize : (if d.aggregate.length < d.settings.aggregationSize then d.aggregate.length
      else d.settings.aggregationSize) = min d.settings.aggregationSize d.aggregate.length := by
    split <;> omega
  have hval : (d.aggregate.take (min d.settings.aggregationSize d.aggregate.length)).length
      = min d.settings.aggregationSize d.aggregate.length := by
    simp only [List.length_take]
    omega
  unfold flushAggregate
  rw [if_neg hne]
  simp only [hsize, writeMetricAggregateSize, hval, hm]

/-- Result of `flushAggregate` on a non-empty buffer when the marshaller
fails: the error is wrapped, and the removed messages stay removed. -/
lemma flushAggregate_error (d : ProducerDaemon) (e : String)
    (hne : d.aggregate.length ≠ 0)
    (hm : BuildAggregateMessage d.marshaller
        (d.aggregate.take (min d.settings.aggregationSize d.aggregate.length))
        [d.settings.messageAttributes] = .error e) :
    flushAggregate d =
      (.error ("can not marshal aggregate: " ++ e),
       { d with
          aggregate := d.aggregate.drop (min d.settings.aggregationSize d.aggregate.length),
          metrics := d.metrics ++
            [{ metricName := metricNameAggregateSize, producerDaemon := d.name,
               value := min d.settings.aggregationSize d.aggregate.length }] }) := by
  have hsize : (if d.aggregate.length < d.settings.aggregationSize then d.aggregate.length
      else d.settings.aggregationSize) = min d.settings.aggregationSize d.aggregate.length := by
    split <;> omega
  have hval : (d.aggregate.take (min d.settings.aggregationSize d.aggregate.length)).length
      = min d.settings.aggregationSize d.aggregate.length := by
    simp only [List.length_take]
    omega
  unfold flushAggregate
  rw [if_neg hne]
  simp only [hsize, writeMetricAggregateSize, hval, hm]

/-- At or above the aggregation threshold, `applyAggregation` removes exactly
`aggregationSize` front messages and returns the folded carrier message. -/
lemma applyAggregation_fold_ok (d : ProducerDaemon) (batch : List WritableMessage)
    (m : WritableMessage)
    (h : 1 < d.settings.aggregationSize)
    (hge : d.settings.aggregationSize ≤ (d.aggregate ++ batch).length)
    (hm : BuildAggregateMessage d.marshaller
        ((d.aggregate ++ batch).take d.settings.aggregationSize)
        [d.settings.messageAttributes] = .ok m) :
    applyAggregation d batch =
      (.ok [m],
       { d with
          aggregate := (d.aggregate ++ batch).drop d.settings.aggregationSize,
          metrics := d.metrics ++
            [{ metricName := metricNameAggregateSize, producerDaemon := d.name,
               value := d.settings.aggregationSize }] }) := by
  have hlen : (d.aggregate ++ batch).length = d.aggregate.length + batch.length :=
    List.length_append _ _
  have hmin : min d.settings.aggregationSize (d.aggregate ++ batch).length
      = d.settings.aggregationSize := Nat.min_eq_left hge
  have hres := flushAggregate_ok { d with aggregate := d.aggregate ++ batch } m
    (by show (d.aggregate ++ batch).length ≠ 0; omega)
    (by show BuildAggregateMessage d.marshaller
          ((d.aggregate ++ batch).take
            (min d.settings.aggregationSize (d.aggregate ++ batch).length))
          [d.settings.messageAttributes] = .ok m
        rw [hmin]; exact hm)
  rw [hmin] at hres
  unfold applyAggregation
  rw [if_neg (Nat.not_le.mpr h)]
  dsimp only
  rw [if_neg (by omega)]
  exact hres

/-- At or above the aggregation threshold with a failing marshaller,
`applyAggregation` fails, with the front messages already removed. -/
lemma applyAggregation_fold_error (d : ProducerDaemon) (batch : List WritableMessage)
    (e : String)
    (h : 1 < d.settings.aggregationSize)
    (hge : d.settings.aggregationSize ≤ (d.aggregate ++ batch).length)
    (hm : BuildAggregateMessage d.marshaller
        ((d.aggregate ++ batch).take d.settings.aggregationSize)
        [d.settings.messageAttributes] = .error e) :
    applyAggregation d batch =
      (.error ("can not marshal aggregate: " ++ e),
       { d with
          aggregate := (d.aggregate ++ batch).drop d.settings.aggregationSize,
          metrics := d.metrics ++
            [{ metricName := metricNameAggregateSize, producerDaemon := d.name,
               value := d.settings.aggregationSize }] }) := by
  have hlen : (d.aggregate ++ batch).length = d.aggregate.length + batch.length :=
    List.length_append _ _
  have hmin : min d.settings.aggregationSize (d.aggregate ++ batch).length
      = d.settings.aggregationSize := Nat.min_eq_left hge
  have hres := flushAggregate_error { d with aggregate := d.aggregate ++ batch } e
    (by show (d.aggregate ++ batch).length ≠ 0; omega)
    (by show BuildAggregateMessage d.marshaller
          ((d.aggregate ++ batch).take
            (min d.settings.aggregationSize (d.aggregate ++ batch).length))
          [d.settings.messageAttributes] = .error e
        rw [hmin]; exact hm)
  rw [hmin] at hres
  unfold applyAggregation
  rw [if_neg (Nat.not_le.mpr h)]
  dsimp only
  rw [if_neg (by omega)]
  exact hres

/-- `flushBatch` is the identity on an empty pending batch buffer. -/
lemma flushBatch_empty (d : ProducerDaemon) (hb : d.batch = []) : flushBatch d = d := by
  simp [flushBatch, hb]

/-- A pending batch buffer at or below the threshold is drained completely by
`flushBatch`. -/
lemma flushBatch_drain (d : ProducerDaemon) (hle : d.batch.length ≤ d.settings.batchSize)
    (hne : d.batch ≠ []) :
    flushBatch d = { d with batch := [], outCh := d.outCh ++ [d.batch] } := by
  have hlen : ¬ d.batch.length = 0 := by simpa using hne
  have hsize : (if d.batch.length < d.settings.batchSize then d.batch.length
      else d.settings.batchSize) = d.batch.length := by split <;> omega
  unfold flushBatch
  rw [if_neg hlen]
  simp only [hsize, List.take_length, List.drop_length]

/-- The output loop returns `nil` whatever the sink did on the way. -/
lemma outputLoop_ok (events : List OutputEvent) : ∀ d, (outputLoop d events).1 = .ok () := by
  induction events with
  | nil => intro d; rfl
  | cons ev rest ih => intro d; exact ih (outputLoopStep d ev)

/-- C1, counterexample: in the scenario interval = 1s, batchSize = 10,
aggregationSize = 1, runnerCount = 1, a single `Write` of 25 messages pushes
only ONE batch of 10 onto the output channel (not two: `Write` calls
`flushBatch` once), and the first forced flush thereafter delivers a second
batch of 10 — the batch of the remaining 5 messages has not reached the
channel within one flush interval. -/
theorem scenario_write25_counterexample :
    (Write scenarioDaemon scenarioMsgs).1 = .ok () ∧
    (Write scenarioDaemon scenarioMsgs).2.outCh.map List.length = [10] ∧
    ¬ (Write scenarioDaemon scenarioMsgs).2.outCh.map List.length = [10, 10] ∧
    (flushAll (Write scenarioDaemon scenarioMsgs).2).2.outCh.map List.length = [10, 10] ∧
    ¬ (flushAll (Write scenarioDaemon scenarioMsgs).2).2.outCh.map List.length
        = [10, 10, 5] :=
  ⟨rfl, rfl, by decide, rfl, by decide⟩

/-- C1, amended: in the same scenario, the `Write` call immediately pushes one
batch of the first 10 messages; the first forced flush pushes the next 10, and
the second forced flush pushes the remaining 5, draining both buffers and
preserving the original message order. -/
theorem scenario_write25_flush_schedule :
    (Write scenarioDaemon scenarioMsgs).1 = .ok () ∧
    scenarioAfterWrite.outCh = [scenarioMsgs.take 10] ∧
    scenarioAfterWrite.batch = scenarioMsgs.drop 10 ∧
    scenarioAfterFlush1.outCh = [scenarioMsgs.take 10, (scenarioMsgs.drop 10).take 10] ∧
    scenarioAfterFlush1.batch = scenarioMsgs.drop 20 ∧
    scenarioAfterFlush2.outCh =
      [scenarioMsgs.take 10, (scenarioMsgs.drop 10).take 10, scenarioMsgs.drop 20] ∧
    scenarioAfterFlush2.batch = [] ∧
    scenarioAfterFlush2.aggregate = [] ∧
    scenarioAfterFlush2.outCh.flatten = scenarioMsgs :=
  ⟨rfl, rfl, rfl, rfl, rfl, rfl, rfl, rfl, rfl⟩

/-- C2, counterexample: a forced flush does not always leave the pending batch
buffer empty — after the scenario `Write` of 25 messages the batch buffer
holds 15 messages, and the forced flush moves only `batchSize = 10` of them,
leaving 5 behind. -/
theorem flushAll_leaves_remainder_counterexample :
    scenarioAfterWrite.batch.length = 15 ∧
    (flushAll scenarioAfterWrite).1 = .ok () ∧
    (flushAll scenarioAfterWrite).2.batch.length = 5 ∧
    ¬ (flushAll scenarioAfterWrite).2.batch.length = 0 :=
  ⟨rfl, rfl, rfl, by decide⟩

/-- C2, amended: provided both pending buffers satisfy the documented length
invariant (strictly below their thresholds) and folding succeeds on the
remaining aggregate, a forced flush (`flushAll`, as run by a timer tick or the
shutdown drain) empties both buffers: the remaining aggregate messages, even
below the aggregation threshold, are folded into one carrier message if
non-empty, and the remaining batch, even below the batch threshold, is pushed
onto the output channel. -/
theorem flushAll_forced_drain (d : ProducerDaemon) (m : WritableMessage)
    (h1 : d.aggregate.length < d.settings.aggregationSize)
    (h2 : d.batch.length < d.settings.batchSize)
    (hm : d.aggregate ≠ [] → BuildAggregateMessage d.marshaller d.aggregate
        [d.settings.messageAttributes] = .ok m) :
    (flushAll d).1 = .ok () ∧
    (flushAll d).2.aggregate = [] ∧
    (flushAll d).2.batch = [] ∧
    (flushAll d).2.outCh = d.outCh ++
      (if (d.batch ++ (if d.aggregate.isEmpty then [] else [m])).isEmpty then []
       else [d.batch ++ (if d.aggregate.isEmpty then [] else [m])]) := by
  by_cases hemp : d.aggregate = []
  · have hfa : flushAggregate d = (.ok [], d) := by
      simp [flushAggregate, hemp]
    simp only [flushAll, hfa]
    by_cases hb : d.batch = []
    · have hfb : flushBatch { d with batch := d.batch ++ [] }
          = { d with batch := d.batch ++ [] } := by
        apply flushBatch_empty
        simp [hb]
      rw [hfb]
      simp [hemp, hb]
    · have hfb := flushBatch_drain { d with batch := d.batch ++ [] }
        (by simpa using le_of_lt h2) (by simpa using hb)
      rw [hfb]
      simp [hemp, hb]
  · have hne : d.aggregate.length ≠ 0 := by simpa using hemp
    have hminlen : min d.settings.aggregationSize d.aggregate.length = d.aggregate.length :=
      Nat.min_eq_right (le_of_lt h1)
    have hfa := flushAggregate_ok d m hne
      (by rw [hminlen, List.take_length]; exact hm hemp)
    rw [hminlen, List.drop_length] at hfa
    simp only [flushAll, hfa]
    have hfb := flushBatch_drain
      { d with
        aggregate := [],
        batch := d.batch ++ [m],
        metrics := d.metrics ++
          [{ metricName := metricNameAggregateSize, producerDaemon := d.name,
             value := d.aggregate.length }] }
      (by simpa using h2) (by simp)
    rw [hfb]
    simp [hemp]

/-- Witness for the amended C2 at a concrete daemon: one pending aggregate
message (threshold 2) and one pending batch message (threshold 3) are drained
into a single output batch by one forced flush. -/
theorem flushAll_forced_drain_witness :
    (flushAll aggDaemon).1 = .ok () ∧
    (flushAll aggDaemon).2.aggregate = [] ∧
    (flushAll aggDaemon).2.batch = [] ∧
    (flushAll aggDaemon).2.outCh = [[.raw 100, aggM0]] := by
  have h := flushAll_forced_drain aggDaemon aggM0 (by decide) (by decide) (fun _ => rfl)
  exact ⟨h.1, h.2.1, h.2.2.1, h.2.2.2.trans rfl⟩

/-- C3, counterexample: a successful `Write` can return with the pending batch
buffer at or above the batch threshold — writing 25 messages into the scenario
daemon (batch size 10) leaves 15 buffered messages, because `Write` flushes at
most one batch. -/
theorem write_length_invariant_counterexample :
    (Write scenarioDaemon scenarioMsgs).1 = .ok () ∧
    scenarioDaemon.settings.batchSize = 10 ∧
    (Write scenarioDaemon scenarioMsgs).2.batch.length = 15 ∧
    ¬ (Write scenarioDaemon scenarioMsgs).2.batch.length
        < scenarioDaemon.settings.batchSize :=
  ⟨rfl, rfl, rfl, by decide⟩

/-- C3, amended: the length invariants do hold across `Write` boundaries
provided each call's input is no longer than the aggregation threshold (when
aggregation is enabled) respectively the batch threshold (when it is
disabled): a successful `Write` starting from buffers strictly below their
thresholds returns with both buffers strictly below their thresholds. -/
theorem Write_preserves_length_invariants (d : ProducerDaemon)
    (batch : List WritableMessage)
    (h1 : d.aggregate.length < d.settings.aggregationSize)
    (h2 : d.batch.length < d.settings.batchSize)
    (hk : batch.length ≤ (if d.settings.aggregationSize ≤ 1 then d.settings.batchSize
          else d.settings.aggregationSize))
    (hok : (Write d batch).1 = .ok ()) :
    (Write d batch).2.aggregate.length < d.settings.aggregationSize ∧
    (Write d batch).2.batch.length < d.settings.batchSize := by
  by_cases hA : d.settings.aggregationSize ≤ 1
  · rw [if_pos hA] at hk
    have hagg := applyAggregation_passthrough (writeMetricMessageCount d batch.length) batch hA
    simp only [Write]
    rw [hagg]
    dsimp only [writeMetricMessageCount]
    split
    next hlt => exact ⟨h1, hlt⟩
    next hge =>
      have hge2 : d.settings.batchSize ≤ d.batch.length + batch.length := by
        have := Nat.not_lt.mp hge
        simpa using this
      constructor
      · rw [flushBatch_aggregate]
        exact h1
      · rw [flushBatch_batch_length]
        dsimp only
        simp only [List.length_append]
        omega
  · rw [if_neg hA] at hk
    have hA1 : 1 < d.settings.aggregationSize := Nat.not_le.mp hA
    by_cases hlt : (d.aggregate ++ batch).length < d.settings.aggregationSize
    · have hagg := applyAggregation_accumulate (writeMetricMessageCount d batch.length)
        batch hA1 hlt
      simp only [Write]
      rw [hagg]
      dsimp only [writeMetricMessageCount]
      simp only [List.append_nil]
      rw [if_pos h2]
      refine ⟨?_, h2⟩
      simpa using hlt
    · have hge : d.settings.aggregationSize ≤ (d.aggregate ++ batch).length := Nat.not_lt.mp hlt
      rcases hm : BuildAggregateMessage d.marshaller
          ((d.aggregate ++ batch).take d.settings.aggregationSize)
          [d.settings.messageAttributes] with e | m
      · have hagg := applyAggregation_fold_error (writeMetricMessageCount d batch.length)
          batch e hA1 hge hm
        simp only [Write] at hok
        rw [hagg] at hok
        dsimp only at hok
        exact absurd hok (by simp)
      · have hagg := applyAggregation_fold_ok (writeMetricMessageCount d batch.length)
          batch m hA1 hge hm
        simp only [Write]
        rw [hagg]
        dsimp only [writeMetricMessageCount]
        have hdrop : ((d.aggregate ++ batch).drop d.settings.aggregationSize).length
            < d.settings.aggregationSize := by
          simp only [List.length_drop, List.length_append]
          simp only [List.length_append] at hge
          omega
        split
        next hlt2 => exact ⟨hdrop, hlt2⟩
        next hge2 =>
          have hge3 : d.settings.batchSize ≤ d.batch.length + 1 := by
            have := Nat.not_lt.mp hge2
            simpa using this
          constructor
          · rw [flushBatch_aggregate]
            exact hdrop
          · rw [flushBatch_batch_length]
            dsimp only
            simp only [List.length_append, List.length_singleton]
            omega

/-- Witness for the amended C3: writing exactly 10 messages (the batch
threshold) into the fresh scenario daemon triggers one flush and returns with
both buffers strictly below their thresholds. -/
theorem Write_preserves_length_invariants_witness :
    ((List.range 10).map WritableMessage.raw).length ≤
      (if scenarioDaemon.settings.aggregationSize ≤ 1 then scenarioDaemon.settings.batchSize
       else scenarioDaemon.settings.aggregationSize) ∧
    (Write scenarioDaemon ((List.range 10).map .raw)).2.aggregate.length
        < scenarioDaemon.settings.aggregationSize ∧
    (Write scenarioDaemon ((List.range 10).map .raw)).2.batch.length
        < scenarioDaemon.settings.batchSize := by
  have h := Write_preserves_length_invariants scenarioDaemon ((List.range 10).map .raw)
    (by decide) (by decide) (by decide) rfl
  exact ⟨by decide, h.1, h.2⟩

/-- C4: for aggregation size greater than 1, `applyAggregation` appends the
incoming messages to the pending aggregate buffer; below the threshold it
returns no carrier message, and at or above the threshold it removes exactly
`aggregationSize` messages from the front (FIFO), folds them into one carrier
message via the folding capability, returns that single-element result and
leaves the excess buffered. -/
theorem applyAggregation_threshold_spec (d : ProducerDaemon)
    (batch : List WritableMessage) (hA : 1 < d.settings.aggregationSize) :
    ((d.aggregate ++ batch).length < d.settings.aggregationSize →
      applyAggregation d batch = (.ok [], { d with aggregate := d.aggregate ++ batch })) ∧
    (∀ m, d.settings.aggregationSize ≤ (d.aggregate ++ batch).length →
      BuildAggregateMessage d.marshaller
          ((d.aggregate ++ batch).take d.settings.aggregationSize)
          [d.settings.messageAttributes] = .ok m →
      (applyAggregation d batch).1 = .ok [m] ∧
      (applyAggregation d batch).2.aggregate =
        (d.aggregate ++ batch).drop d.settings.aggregationSize ∧
      (applyAggregation d batch).2.batch = d.batch) := by
  constructor
  · intro hlt
    exact applyAggregation_accumulate d batch hA hlt
  · intro m hge hm
    rw [applyAggregation_fold_ok d batch m hA hge hm]
    exact ⟨rfl, rfl, rfl⟩

/-- Witness for C4: with threshold 2, one buffered and two incoming messages
fold the first two into one carrier message and keep the third buffered. -/
theorem applyAggregation_threshold_spec_witness :
    (applyAggregation aggDaemon [.raw 1, .raw 2]).1 = .ok [aggM01] ∧
    (applyAggregation aggDaemon [.raw 1, .raw 2]).2.aggregate = [.raw 2] ∧
    (applyAggregation aggDaemon [.raw 1, .raw 2]).2.batch = [.raw 100] := by
  have h := (applyAggregation_threshold_spec aggDaemon [.raw 1, .raw 2] (by decide)).2
    aggM01 (by decide) rfl
  exact ⟨h.1, h.2.1.trans rfl, h.2.2.trans rfl⟩

/-- C5: when a `Write` triggers an aggregation and the folding capability
fails, the call returns the wrapped error, the pending batch buffer and the
output channel are left unchanged, and the `aggregationSize` messages already
removed from the front of the aggregate buffer are dropped for good. -/
theorem Write_fold_error_drops_messages (d : ProducerDaemon)
    (batch : List WritableMessage) (e : String)
    (hA : 1 < d.settings.aggregationSize)
    (hge : d.settings.aggregationSize ≤ (d.aggregate ++ batch).length)
    (hm : BuildAggregateMessage d.marshaller
        ((d.aggregate ++ batch).take d.settings.aggregationSize)
        [d.settings.messageAttributes] = .error e) :
    (Write d batch).1 = .error ("can not apply aggregation in producer " ++ d.name ++ ": "
        ++ ("can not marshal aggregate: " ++ e)) ∧
    (Write d batch).2.batch = d.batch ∧
    (Write d batch).2.outCh = d.outCh ∧
    (Write d batch).2.aggregate = (d.aggregate ++ batch).drop d.settings.aggregationSize := by
  have hagg := applyAggregation_fold_error (writeMetricMessageCount d batch.length)
    batch e hA hge hm
  simp only [Write]
  rw [hagg]
  exact ⟨rfl, rfl, rfl, rfl⟩

/-- Witness for C5: the failing marshaller aborts the `Write`, the batch
buffer keeps its old content, and the two removed raw messages are gone. -/
theorem Write_fold_error_drops_messages_witness :
    (Write failDaemon [.raw 1]).1 =
      .error "can not apply aggregation in producer fail: can not marshal aggregate: boom" ∧
    (Write failDaemon [.raw 1]).2.batch = [.raw 100] ∧
    (Write failDaemon [.raw 1]).2.outCh = [] ∧
    (Write failDaemon [.raw 1]).2.aggregate = [] := by
  have h := Write_fold_error_drops_messages failDaemon [.raw 1] "boom"
    (by decide) (by decide) rfl
  exact ⟨h.1.trans rfl, h.2.1, h.2.2.1, h.2.2.2.trans rfl⟩

/-- C6: `flushBatch` is a no-op on an empty pending batch buffer, and
otherwise moves up to `batchSize` carrier messages from the front of the
buffer onto the output channel, leaving the remainder in place in order and
the aggregate buffer untouched. -/
theorem flushBatch_front_spec (d : ProducerDaemon) :
    (d.batch = [] → flushBatch d = d) ∧
    (d.batch ≠ [] →
      (flushBatch d).outCh =
        d.outCh ++ [d.batch.take (min d.settings.batchSize d.batch.length)] ∧
      (flushBatch d).batch = d.batch.drop (min d.settings.batchSize d.batch.length) ∧
      (flushBatch d).aggregate = d.aggregate) := by
  constructor
  · exact flushBatch_empty d
  · intro hne
    have hlen : ¬ d.batch.length = 0 := by simpa using hne
    have hsize : (if d.batch.length < d.settings.batchSize then d.batch.length
        else d.settings.batchSize) = min d.settings.batchSize d.batch.length := by
      split <;> omega
    simp only [flushBatch, if_neg hlen, hsize]
    refine ⟨by trivial, by trivial, by trivial⟩

/-- Witness for C6 at a concrete daemon with one pending carrier message. -/
theorem flushBatch_front_spec_witness :
    (flushBatch aggDaemon).outCh = [[.raw 100]] ∧
    (flushBatch aggDaemon).batch = [] ∧
    (flushBatch aggDaemon).aggregate = [.raw 0] := by
  have h := (flushBatch_front_spec aggDaemon).2 (List.cons_ne_nil _ _)
  exact ⟨h.1.trans rfl, h.2.1.trans rfl, h.2.2.trans rfl⟩

/-- C7: sink write errors in the output loop are never propagated (the loop
always returns `nil`) and the batch is never requeued; a cancellation-class
error is logged at warn severity, any other error at error severity, and in
every case the worker records its batch-size and idle-duration metrics and
continues with the next batch. -/
theorem outputLoop_swallow_write_errors (d : ProducerDaemon) (ev : OutputEvent)
    (evs : List OutputEvent) (b : List WritableMessage) (idle : Nat) (e : String) :
    (∀ events, (outputLoop d events).1 = .ok ()) ∧
    ((outputLoopStep d ev).outCh = d.outCh ∧ (outputLoopStep d ev).batch = d.batch ∧
      (outputLoopStep d ev).aggregate = d.aggregate) ∧
    (outputLoopStep d { batch := b, idleDuration := idle, sinkResult := .errCanceled }).logs =
      d.logs ++ [(LogLevel.warn,
        "can not write messages to output in producer " ++ d.name
          ++ " because of canceled context")] ∧
    (outputLoopStep d { batch := b, idleDuration := idle, sinkResult := .errOther e }).logs =
      d.logs ++ [(LogLevel.error, "can not write messages to output in producer " ++ d.name)] ∧
    (∀ r, (outputLoopStep d { batch := b, idleDuration := idle, sinkResult := r }).metrics =
      d.metrics ++
        [{ metricName := metricNameBatchSize, producerDaemon := d.name, value := b.length },
         { priority := .high, metricName := metricNameIdleDuration, producerDaemon := d.name,
           unit := .millisecondsAverage, value := min idle d.settings.interval / 1000000 }]) ∧
    outputLoop d (ev :: evs) = outputLoop (outputLoopStep d ev) evs := by
  have hmin : (if d.settings.interval < idle then d.settings.interval else idle)
      = min idle d.settings.interval := by
    rw [Nat.min_def]
    split <;> split <;> omega
  refine ⟨fun events => outputLoop_ok events d, ⟨?_, ?_, ?_⟩, ?_, ?_, ?_, rfl⟩
  · rcases ev with ⟨b0, i0, r0⟩
    cases r0 <;> rfl
  · rcases ev with ⟨b0, i0, r0⟩
    cases r0 <;> rfl
  · rcases ev with ⟨b0, i0, r0⟩
    cases r0 <;> rfl
  · simp [outputLoopStep, writeMetricBatchSize, writeMetricIdleDuration]
  · simp [outputLoopStep, writeMetricBatchSize, writeMetricIdleDuration]
  · intro r
    cases r <;> simp [outputLoopStep, writeMetricBatchSize, writeMetricIdleDuration, hmin]

/-- C8: for every dequeued batch, the idle-duration metric the worker records
equals the measured idle duration clamped to at most the configured flush
interval, converted to milliseconds, and is therefore never larger than the
flush interval in milliseconds. -/
theorem idleDuration_metric_le_interval (d : ProducerDaemon) (ev : OutputEvent) :
    (outputLoopStep d ev).metrics =
      d.metrics ++
        [{ metricName := metricNameBatchSize, producerDaemon := d.name,
           value := ev.batch.length },
         { priority := .high, metricName := metricNameIdleDuration, producerDaemon := d.name,
           unit := .millisecondsAverage,
           value := min ev.idleDuration d.settings.interval / 1000000 }] ∧
    min ev.idleDuration d.settings.interval / 1000000 ≤ d.settings.interval / 1000000 := by
  constructor
  · rcases ev with ⟨b, idle, r⟩
    have hmin : (if d.settings.interval < idle then d.settings.interval else idle)
        = min idle d.settings.interval := by
      rw [Nat.min_def]
      split <;> split <;> omega
    cases r <;> simp [outputLoopStep, writeMetricBatchSize, writeMetricIdleDuration, hmin]
  · exact Nat.div_le_div_right (Nat.min_le_right _ _)

/-- C9: `ProvideProducerDaemon` is a lookup-or-create on the daemon name —
after any successful call, every further call with the same name returns the
very same result and leaves the registry unchanged, and when the name is
already registered the call returns the registered entry without constructing
anything (registry and result are independent of the constructor argument). -/
theorem ProvideProducerDaemon_lookup_or_create (reg : DaemonRegistry)
    (newDaemon : Except String Nat) (name : String) (v : Option Nat) (reg2 : DaemonRegistry)
    (h : ProvideProducerDaemon reg newDaemon name = (.ok v, reg2)) :
    (∀ newDaemon2, ProvideProducerDaemon reg2 newDaemon2 name = (.ok v, reg2)) ∧
    (∀ w, reg.lookup name = some w →
      ProvideProducerDaemon reg newDaemon name = (.ok w, reg) ∧ reg2 = reg) := by
  rcases hl : reg.lookup name with _ | w0
  · rcases hn : newDaemon with e | dref
    · rw [hn] at h
      simp only [ProvideProducerDaemon, hl] at h
      exact absurd h (by simp)
    · rw [hn] at h
      simp only [ProvideProducerDaemon, hl, Prod.mk.injEq, Except.ok.injEq] at h
      obtain ⟨hv, hreg⟩ := h
      subst hv
      subst hreg
      constructor
      · intro newDaemon2
        simp [ProvideProducerDaemon, List.lookup]
      · intro w hw
        exact Option.noConfusion hw
  · simp only [ProvideProducerDaemon, hl, Prod.mk.injEq, Except.ok.injEq] at h
    obtain ⟨hv, hreg⟩ := h
    subst hv
    subst hreg
    constructor
    · intro newDaemon2
      simp [ProvideProducerDaemon, hl]
    · intro w hw
      rw [Option.some.injEq] at hw
      subst hw
      constructor
      · simp [ProvideProducerDaemon, hl]
      · rfl

/-- Witness for C9: after a first successful creation under a name, a second
call with the same name returns the stored instance even though its
constructor argument would fail. -/
theorem ProvideProducerDaemon_lookup_or_create_witness :
    ProvideProducerDaemon [("daemon", some 0)] (.error "must not construct") "daemon"
      = (.ok (some 0), [("daemon", some 0)]) :=
  (ProvideProducerDaemon_lookup_or_create [] (.ok 0) "daemon" (some 0)
      [("daemon", some 0)] rfl).1 (.error "must not construct")

/-- C10: `WriteOne` of a message is exactly `Write` of the one-element batch —
same returned error and same resulting daemon state. -/
theorem WriteOne_delegates_to_Write (d : ProducerDaemon) (msg : WritableMessage) :
    WriteOne d msg = Write d [msg] := rfl

end Gosoline.Stream
